import Mathlib

/-!
Shallow embedding of the sound engine of the TheMagicKeys firmware
(`src/daisy_seed/play_notes_from_arduino/play_notes_from_arduino.cpp`,
second program variant, together with `common.cpp`/`common.h` and the MIDI
driver `play_midi_files` module).

Machine integers: positions are `size_t` on a 32-bit Cortex-M7, embedded as
`Nat` with explicit wrap-around subtraction `usub32` (mod 2^32) wherever the
C code subtracts two `size_t` values.  `float` arithmetic is embedded as
exact rational arithmetic over `ℚ`.
-/

namespace MagicKeys

/-! ### Constants (from the `#define` block, lines 940-977) -/

def NB_KEYS : Nat := 85
def MAX_NB_SIMULTANEOUS_NOTES : Nat := 10
def WAV_ENV_START_MS : Nat := 10
def WAV_ENV_END_MS : Nat := 250
def SAMPLE_RATE_HZ : Nat := 44000
def MAX_ATTACK_TIME : Nat := 100000
def MIN_ATTACK_TIME : Nat := 10000
def PEDAL_KEY_IDX : Nat := 85
def WAV_ENV_START_NB_SAMPLES : Nat := (SAMPLE_RATE_HZ * WAV_ENV_START_MS) / 1000
def WAV_ENV_END_NB_SAMPLES : Nat := (SAMPLE_RATE_HZ * WAV_ENV_END_MS) / 1000
def NB_SPECIAL_SOUNDS : Nat := 2
def SOUND_READY_IDX : Nat := 0
def SOUND_PROGRAM_CHARGING_IDX : Nat := 1
def NB_SOUNDS : Nat := NB_KEYS + NB_SPECIAL_SOUNDS
def MAX_WAV_DATA_SIZE_BYTES : Nat := 60 * 1000 * 1000
def MAX_WAV_DATA_SIZE_WORD : Nat := MAX_WAV_DATA_SIZE_BYTES / 2

/-- Width of `size_t` on the 32-bit target. -/
def W32 : Nat := 4294967296

/-- Wrap-around (unsigned, mod 2^32) subtraction, the semantics of a
`size_t` difference `a - b` in the C source. -/
def usub32 (a b : Nat) : Nat := (a + (W32 - b % W32)) % W32

/-! ### Data model: `TSoundData` (common.h / lines 984-998) -/

/-- Per-sound playback state record, one slot per note or special sound. -/
structure TSoundData where
  first_sample_pos : Nat
  last_sample_pos : Nat
  nb_samples : Nat
  playing : Bool
  cur_playing_pos : Nat
  key_up : Bool
  key_up_pos : Nat
  pedal_up_pos : Nat
  volume : ℚ
  sound_end_soon : Bool
deriving DecidableEq, Repr

/-! ### Velocity/volume curve (`compute_volume`, lines 1843-1864) -/

/-- `compute_volume`: clamped linear map from attack (flight) time to gain. -/
def compute_volume (attack_time : Nat) : ℚ :=
  let slope : ℚ := (-9/10) / ((MAX_ATTACK_TIME : ℚ) - (MIN_ATTACK_TIME : ℚ))
  let offset : ℚ := 1 - slope * (MIN_ATTACK_TIME : ℚ)
  let amp_factor : ℚ := slope * (attack_time : ℚ) + offset
  if amp_factor > 1 then 1
  else if amp_factor < 1/10 then 1/10
  else amp_factor

/-! ### Key-index mapping (`arduino_to_piano_key_index`, lines 1812-1830) -/

/-- Maps a raw Arduino scanning address to a piano key index (pedal = 85). -/
def arduino_to_piano_key_index (key_index_arduino : Nat) : Nat :=
  if key_index_arduino = 6 then 0
  else if key_index_arduino = 48 then PEDAL_KEY_IDX
  else key_index_arduino + 1 - key_index_arduino / 7

/-- The raw addresses that are physically connected: 14 satellite boards of
7 addresses each; the 7th address of a board (`r % 7 = 6`) is not connected,
except address 6 (the extra leftmost key) and address 48 (the pedal). -/
def validArduinoKey (r : Nat) : Prop :=
  r ≤ 97 ∧ (r % 7 ≠ 6 ∨ r = 6 ∨ r = 48)

instance (r : Nat) : Decidable (validArduinoKey r) := by
  unfold validArduinoKey; infer_instance

/-- Inverse witness of the key mapping on the dense logical range `0..85`. -/
def pianoToArduinoKeyIndex (v : Nat) : Nat :=
  if v = 0 then 6
  else if v = PEDAL_KEY_IDX then 48
  else (v - 1) + (v - 1) / 6

/-- Raw key index parsed by `analyze_msg_received` from the two decimal
characters of a transport message (lines 1515-1518): value in `0..99`. -/
def parseTwoDigitKey (d1 d2 : Fin 10) : Nat := 10 * d1.val + d2.val

/-! ### Event-to-Voice dispatcher, per-voice updates
(`manage_msg_received_in_normal_mode` lines 1569-1639,
`play_special_sound` lines 1681-1694, `common.cpp`) -/

/-- The common reset-and-arm sequence: set the volume, rewind all positions
to the first sample, clear the release flags, set `playing` last. -/
def triggerVoice (amp : ℚ) (v : TSoundData) : TSoundData :=
  { v with
    volume := amp
    cur_playing_pos := v.first_sample_pos
    key_up_pos := v.first_sample_pos
    pedal_up_pos := v.first_sample_pos
    key_up := false
    sound_end_soon := false
    playing := true }

/-- Voice part of the KEY_DOWN_MSG branch. -/
def keyDownVoice (attack_time : Nat) (v : TSoundData) : TSoundData :=
  triggerVoice (compute_volume attack_time) v

/-- Voice part of the KEY_UP_MSG branch (also `stop_playing_a_note`). -/
def keyUpVoice (v : TSoundData) : TSoundData :=
  { v with key_up_pos := v.cur_playing_pos, key_up := true }

/-- Per-note effect of PEDAL down: rewind `pedal_up_pos`. -/
def pedalDownVoice (v : TSoundData) : TSoundData :=
  { v with pedal_up_pos := v.first_sample_pos }

/-- Per-note effect of PEDAL up: snapshot the current position. -/
def pedalUpVoice (v : TSoundData) : TSoundData :=
  { v with pedal_up_pos := v.cur_playing_pos }

/-- Voice part of `play_special_sound`: same sequence with volume 1. -/
def playSpecialVoice (v : TSoundData) : TSoundData :=
  triggerVoice 1 v

/-! ### Envelope & mixing engine (`AudioCallback`, lines 1045-1156),
state mutations of one voice for one output frame. -/

/-- Lines 1087-1093: pre-arm a release just before the natural sample end. -/
def armEndSoon (v : TSoundData) : TSoundData :=
  if usub32 v.last_sample_pos v.cur_playing_pos ≤ WAV_ENV_END_NB_SAMPLES ∧
      v.sound_end_soon = false then
    { v with
      sound_end_soon := true
      key_up_pos := v.cur_playing_pos
      pedal_up_pos := v.cur_playing_pos }
  else v

/-- The later of the key-release and pedal-release positions
(lines 1104-1113). -/
def relPos (v : TSoundData) : Nat :=
  if v.key_up_pos < v.pedal_up_pos then v.pedal_up_pos else v.key_up_pos

/-- Lines 1118-1125: the end-of-release re-initialisation of a voice. -/
def resetFields (v : TSoundData) : TSoundData :=
  { v with
    cur_playing_pos := v.first_sample_pos
    key_up_pos := v.first_sample_pos
    pedal_up_pos := v.first_sample_pos
    playing := false
    key_up := false
    sound_end_soon := false
    volume := 0 }

/-- Lines 1099-1136: release handling (state part). -/
def releaseStep (pedal_up : Bool) (v : TSoundData) : TSoundData :=
  if (v.key_up = true ∧ pedal_up = true) ∨ v.sound_end_soon = true then
    if usub32 v.cur_playing_pos (relPos v) ≥ WAV_ENV_END_NB_SAMPLES then
      resetFields v
    else v
  else v

/-- Lines 1142-1145: advance the read position if the end is not reached. -/
def advanceStep (v : TSoundData) : TSoundData :=
  if v.cur_playing_pos < v.last_sample_pos then
    { v with cur_playing_pos := v.cur_playing_pos + 1 }
  else v

/-- State effect of one audio frame of `AudioCallback` on one voice. -/
def voiceFrame (pedal_up : Bool) (v : TSoundData) : TSoundData :=
  if v.playing = true then advanceStep (releaseStep pedal_up (armEndSoon v))
  else v

/-- `k` consecutive audio frames on one voice. -/
def voiceFrames (pedal_up : Bool) (k : Nat) (v : TSoundData) : TSoundData :=
  (voiceFrame pedal_up)^[k] v

/-- The sample value mixed for one voice in one frame (lines 1072-1134):
polyphony attenuation (C integer division by 10, toward zero), libDaisy
`s162f` conversion, velocity volume, attack ramp, then release ramp, with
the same-frame effect of the end-soon pre-arm taken into account. -/
def voiceContribution (sample : Nat → Int) (pedal_up : Bool)
    (v : TSoundData) : ℚ :=
  if v.playing = true then
    let note_sig_int16 : Int :=
      Int.tdiv (sample v.cur_playing_pos) (MAX_NB_SIMULTANEOUS_NOTES : Int)
    let base : ℚ := (note_sig_int16 : ℚ) / 32767 * v.volume
    let base : ℚ :=
      if usub32 v.cur_playing_pos v.first_sample_pos <
          WAV_ENV_START_NB_SAMPLES then
        base * (usub32 v.cur_playing_pos v.first_sample_pos : ℚ) /
          (WAV_ENV_START_NB_SAMPLES : ℚ)
      else base
    let v1 := armEndSoon v
    if (v1.key_up = true ∧ pedal_up = true) ∨ v1.sound_end_soon = true then
      if usub32 v1.cur_playing_pos (relPos v1) ≥ WAV_ENV_END_NB_SAMPLES then 0
      else base *
        ((usub32 (relPos v1 + WAV_ENV_END_NB_SAMPLES) v1.cur_playing_pos : ℚ)
          / (WAV_ENV_END_NB_SAMPLES : ℚ))
    else base
  else 0

/-! ### Global state and message dispatch -/

/-- The global mutable state shared by the dispatcher and the audio
callback: the process-wide pedal flag `g_pedal_up` and the Voice Table
`g_sounds` (87 used slots, embedded as a total map on indices). -/
structure PianoState where
  pedal_up : Bool
  sounds : Nat → TSoundData

/-- Point update of the Voice Table. -/
def updateAt (j : Nat) (f : TSoundData → TSoundData)
    (tbl : Nat → TSoundData) : Nat → TSoundData :=
  fun i => if i = j then f (tbl i) else tbl i

inductive EMsgType where
  | keyUpMsg : EMsgType
  | keyDownMsg : EMsgType
deriving DecidableEq, Repr

/-- `manage_msg_received_in_normal_mode` (lines 1569-1639): note messages
mutate `g_sounds[NB_SPECIAL_SOUNDS + key]`; pedal messages toggle
`g_pedal_up` and sweep `pedal_up_pos` over the 85 note voices. -/
def manage_msg_received_in_normal_mode (key_index : Nat)
    (msg_type : EMsgType) (attack_time : Nat) (s : PianoState) : PianoState :=
  if key_index ≠ PEDAL_KEY_IDX then
    match msg_type with
    | EMsgType.keyDownMsg =>
        { s with sounds := (updateAt (NB_SPECIAL_SOUNDS + key_index)
            (keyDownVoice attack_time) s.sounds) }
    | EMsgType.keyUpMsg =>
        { s with sounds :=
            (updateAt (NB_SPECIAL_SOUNDS + key_index) keyUpVoice s.sounds) }
  else
    match msg_type with
    | EMsgType.keyDownMsg =>
        { pedal_up := false
          sounds := fun i =>
            if NB_SPECIAL_SOUNDS ≤ i ∧ i < NB_SPECIAL_SOUNDS + NB_KEYS then
              pedalDownVoice (s.sounds i)
            else s.sounds i }
    | EMsgType.keyUpMsg =>
        { pedal_up := true
          sounds := fun i =>
            if NB_SPECIAL_SOUNDS ≤ i ∧ i < NB_SPECIAL_SOUNDS + NB_KEYS then
              pedalUpVoice (s.sounds i)
            else s.sounds i }

/-- `play_special_sound` (lines 1681-1694). -/
def play_special_sound (sound_idx : Nat) (s : PianoState) : PianoState :=
  { s with sounds := updateAt sound_idx playSpecialVoice s.sounds }

/-- State effect of one frame of `AudioCallback` over the whole table
(the inner `for sound_idx < NB_SOUNDS` loop; `g_pedal_up` is only read). -/
def audioFrame (s : PianoState) : PianoState :=
  { s with sounds := fun i =>
      if i < NB_SOUNDS then voiceFrame s.pedal_up (s.sounds i)
      else s.sounds i }

/-- One dispatcher operation or one mixing-engine frame. -/
inductive PianoOp where
  | msg : Nat → EMsgType → Nat → PianoOp
  | special : Nat → PianoOp
  | frame : PianoOp
deriving Repr

def applyOp : PianoOp → PianoState → PianoState
  | PianoOp.msg key mt t, s => manage_msg_received_in_normal_mode key mt t s
  | PianoOp.special idx, s => play_special_sound idx s
  | PianoOp.frame, s => audioFrame s

def applyOps (ops : List PianoOp) (s : PianoState) : PianoState :=
  ops.foldl (fun st op => applyOp op st) s

/-! ### Sample loading
(`load_special_sounds_wav_files_in_ram` lines 1315-1356,
`load_notes_wav_files_in_ram` lines 1361-1399) -/

/-- Position fields written into one voice when its wav data (of
`nb` 16-bit words) is loaded at buffer position `start`. -/
def loadVoice (start nb : Nat) (v : TSoundData) : TSoundData :=
  { v with
    first_sample_pos := start
    last_sample_pos := start + nb
    nb_samples := nb
    cur_playing_pos := start
    key_up_pos := start
    pedal_up_pos := start }

/-- The sequential loading loop: each sound is placed at the running
position `pos`, which then advances by the sound's word count.  Returns the
`(first_sample_pos, nb_samples, last_sample_pos)` triple of each sound.
The code performs no capacity check against `MAX_WAV_DATA_SIZE_WORD`. -/
def loadRegions : Nat → List Nat → List (Nat × Nat × Nat)
  | _, [] => []
  | pos, nb :: rest => (pos, nb, pos + nb) :: loadRegions (pos + nb) rest

/-- `g_first_note_position`: notes start where the special sounds ended. -/
def firstNotePosition (specialSizes : List Nat) : Nat := specialSizes.sum

/-- Whole startup load: special sounds from position 0, then the notes. -/
def loadAllSounds (specialSizes noteSizes : List Nat) :
    List (Nat × Nat × Nat) :=
  loadRegions 0 specialSizes ++
    loadRegions (firstNotePosition specialSizes) noteSizes

/-! ### MIDI driver (`src/unnamed/part_002`, `play_midi_file_from_ram`
lines 287-419, with `start_playing_a_note` / `stop_playing_a_note`
from `common.cpp`) -/

/-- `start_playing_a_note`: unconditional trigger with a given gain. -/
def start_playing_a_note (key_index : Nat) (amplification : ℚ)
    (tbl : Nat → TSoundData) : Nat → TSoundData :=
  updateAt (NB_SPECIAL_SOUNDS + key_index) (triggerVoice amplification) tbl

/-- `stop_playing_a_note`: mark the key released. -/
def stop_playing_a_note (key_index : Nat) (tbl : Nat → TSoundData) :
    Nat → TSoundData :=
  updateAt (NB_SPECIAL_SOUNDS + key_index) keyUpVoice tbl

/-- `midi_decode_var_length_param`: variable-length quantity, 7 bits per
byte, continuation in the msb, at most 4 bytes scanned; returns
`(value, length)`, with length 0 when no terminating byte is found
(the error case of the C function, which leaves `*len` untouched at 0). -/
def midi_decode_var_length_param (data : Nat → Nat) (i : Nat) : Nat × Nat :=
  let b0 := data i
  if b0 % 256 < 128 then (b0 % 128, 1)
  else
    let b1 := data (i + 1)
    if b1 % 256 < 128 then ((b0 % 128) * 128 + b1 % 128, 2)
    else
      let b2 := data (i + 2)
      if b2 % 256 < 128 then
        (((b0 % 128) * 128 + b1 % 128) * 128 + b2 % 128, 3)
      else
        let b3 := data (i + 3)
        if b3 % 256 < 128 then
          ((((b0 % 128) * 128 + b1 % 128) * 128 + b2 % 128) * 128 +
            b3 % 128, 4)
        else
          ((((b0 % 128) * 128 + b1 % 128) * 128 + b2 % 128) * 128 +
            b3 % 128, 0)

/-- Parser state of the track-event loop of `play_midi_file_from_ram`. -/
structure MidiTrackState where
  idx : Nat
  running_status : Nat
  running_channel : Nat
  sounds : Nat → TSoundData

/-- Position of the event byte of the next track event: the current
position plus the encoded length of its delta time. -/
def midiEventStart (data : Nat → Nat) (s : MidiTrackState) : Nat :=
  s.idx + (midi_decode_var_length_param data s.idx).2

/-- The MIDI note shift applied before dispatch (`shift_notes = 24`). -/
def SHIFT_NOTES : Nat := 24

/-- Key transformation of the Note-On branch (lines 390-403). -/
def midiKeyTransform (d1 : Nat) : Nat :=
  let k1 := if SHIFT_NOTES ≤ d1 then d1 - SHIFT_NOTES else d1
  let k2 := if NB_KEYS ≤ k1 then NB_KEYS else k1
  if 0 < k2 then k2 - 1 else k2

/-- One iteration of the track-event loop (lines 278-419): consume the
delta time, then one event.  Meta events skip their declared length; sysex
events skip only the status byte; channel events consume their data bytes
(with running-status carry-over); only a Note-On event reaches the
dispatcher (velocity 0 acting as a key-up). -/
def processMidiEvent (data : Nat → Nat) (s : MidiTrackState) :
    MidiTrackState :=
  let dp := midi_decode_var_length_param data s.idx
  let i := s.idx + dp.2
  let b := data i
  if b = 255 then
    let lp := midi_decode_var_length_param data (i + 2)
    { s with idx := i + 2 + lp.2 + lp.1 }
  else if 240 ≤ b ∧ b ≤ 247 then
    { s with idx := i + 1 }
  else
    let status_msb0 := b / 16 * 16
    let channel0 := b % 16
    let statusGiven := 128 ≤ status_msb0 ∧ status_msb0 ≤ 224
    let status_msb := if statusGiven then status_msb0 else s.running_status
    let channel := if statusGiven then channel0 else s.running_channel
    let j := if statusGiven then i + 1 else i
    let nb_data_bytes :=
      if status_msb = 128 then 2
      else if status_msb = 144 then 2
      else if status_msb = 160 then 2
      else if status_msb = 176 then 2
      else if status_msb = 192 then 1
      else if status_msb = 208 then 1
      else if status_msb = 224 then 2
      else 0
    let data_byte_1 := if 1 ≤ nb_data_bytes then data j else 0
    let data_byte_2 := if 2 ≤ nb_data_bytes then data (j + 1) else 0
    let j2 := j + nb_data_bytes
    if status_msb = 144 then
      let key_idx := midiKeyTransform data_byte_1
      if data_byte_2 ≠ 0 then
        { idx := j2
          running_status := status_msb
          running_channel := channel
          sounds :=
            start_playing_a_note key_idx ((data_byte_2 : ℚ) / 80) s.sounds }
      else
        { idx := j2
          running_status := status_msb
          running_channel := channel
          sounds := stop_playing_a_note key_idx s.sounds }
    else
      { idx := j2
        running_status := status_msb
        running_channel := channel
        sounds := s.sounds }

/-! ### Invariants and distinguished states -/

/-- The position bound of the spec: `0 ≤ cur_playing_pos ≤ last_sample_pos`. -/
def posInv (v : TSoundData) : Prop :=
  0 ≤ v.cur_playing_pos ∧ v.cur_playing_pos ≤ v.last_sample_pos

/-- Per-voice invariant: the position bound together with the load-time
fact `first_sample_pos ≤ last_sample_pos`. -/
def soundInv (v : TSoundData) : Prop :=
  posInv v ∧ v.first_sample_pos ≤ v.last_sample_pos

instance (v : TSoundData) : Decidable (soundInv v) := by
  unfold soundInv posInv; infer_instance

/-- Global invariant over the whole Voice Table. -/
def stateInv (s : PianoState) : Prop := ∀ i, soundInv (s.sounds i)

/-- The state a voice is actually left in by the end-of-release
re-initialisation frame: all fields reset, except that the final
position-increment of the same frame has already moved
`cur_playing_pos` to `first_sample_pos + 1`. -/
def postResetState (v : TSoundData) : TSoundData :=
  { first_sample_pos := v.first_sample_pos
    last_sample_pos := v.last_sample_pos
    nb_samples := v.nb_samples
    playing := false
    cur_playing_pos := v.first_sample_pos + 1
    key_up := false
    key_up_pos := v.first_sample_pos
    pedal_up_pos := v.first_sample_pos
    volume := 0
    sound_end_soon := false }

/-- An idle voice slot (all fields zero), used in concrete witnesses. -/
def soundAtRest : TSoundData :=
  ⟨0, 0, 0, false, 0, false, 0, 0, 0, false⟩

/-- A freshly key-released playing voice used in concrete witnesses. -/
def demoVoiceReleased : TSoundData :=
  ⟨0, 100000, 100000, true, 500, true, 500, 0, 1, false⟩

/-- A playing, key-released, pedal-sustained voice used in witnesses. -/
def demoVoiceSustained : TSoundData :=
  ⟨0, 100000, 100000, true, 500, true, 450, 0, 1, false⟩

/-- A loaded but idle voice with 20000 samples, used in witnesses. -/
def demoBaseNote : TSoundData :=
  ⟨0, 20000, 20000, false, 0, true, 0, 0, 0, false⟩

/-- A loaded idle voice with a single sample (shorter than the release
window), base of the C5 counterexample. -/
def shortBaseNote : TSoundData :=
  ⟨0, 1, 1, false, 0, true, 0, 0, 0, false⟩

/-- A Voice Table with every slot idle. -/
def tableAtRest : Nat → TSoundData := fun _ => soundAtRest

/-- A piano state with pedal up and every voice idle. -/
def pianoAtRest : PianoState := ⟨true, tableAtRest⟩

/-- MIDI track bytes of the C8 counterexample: delta time 0, then a
Note-Off event `0x80 60 64` (channel 0, key 60, velocity 64). -/
def midiNoteOffData : Nat → Nat := fun n =>
  if n = 0 then 0
  else if n = 1 then 128
  else if n = 2 then 60
  else if n = 3 then 64
  else 0

/-- A Voice Table in which the note the Note-Off addresses (slot
`NB_SPECIAL_SOUNDS + 35 = 37`) is currently playing. -/
def midiTableC8 : Nat → TSoundData := fun i =>
  if i = 37 then ⟨0, 50000, 50000, true, 1000, false, 0, 0, 1, false⟩
  else soundAtRest

/-- Parser state at the start of the C8 counterexample event. -/
def midiStateC8 : MidiTrackState := ⟨0, 0, 0, midiTableC8⟩

/-- MIDI track bytes of the C8 witness: delta time 0, then a Note-On
event `0x90 60 100` (channel 0, key 60, velocity 100). -/
def midiNoteOnData : Nat → Nat := fun n =>
  if n = 0 then 0
  else if n = 1 then 144
  else if n = 2 then 60
  else if n = 3 then 100
  else 0

/-- Parser state over an idle table, for the C8 witness. -/
def midiStateIdle : MidiTrackState := ⟨0, 0, 0, tableAtRest⟩

/-! ## Helper lemmas -/

theorem usub32_of_le {a b : Nat} (hba : b ≤ a) (ha : a < W32) :
    usub32 a b = a - b := by
  unfold usub32
  have hb : b % W32 = b := Nat.mod_eq_of_lt (lt_of_le_of_lt hba ha)
  rw [hb]
  have h1 : a + (W32 - b) = (a - b) + W32 := by
    have : b ≤ W32 := le_of_lt (lt_of_le_of_lt hba ha)
    omega
  rw [h1, Nat.add_mod_right, Nat.mod_eq_of_lt (by omega)]

theorem armEndSoon_skip {v : TSoundData}
    (h : ¬(usub32 v.last_sample_pos v.cur_playing_pos ≤
        WAV_ENV_END_NB_SAMPLES ∧ v.sound_end_soon = false)) :
    armEndSoon v = v := by
  rw [armEndSoon, if_neg h]

theorem releaseStep_skip {p : Bool} {v : TSoundData}
    (h : ¬((v.key_up = true ∧ p = true) ∨ v.sound_end_soon = true)) :
    releaseStep p v = v := by
  rw [releaseStep, if_neg h]

theorem releaseStep_noReset {p : Bool} {v : TSoundData}
    (h2 : ¬(WAV_ENV_END_NB_SAMPLES ≤
        usub32 v.cur_playing_pos (relPos v))) :
    releaseStep p v = v := by
  rw [releaseStep]
  by_cases h1 : (v.key_up = true ∧ p = true) ∨ v.sound_end_soon = true
  · rw [if_pos h1, if_neg h2]
  · rw [if_neg h1]

theorem releaseStep_reset {p : Bool} {v : TSoundData}
    (h1 : (v.key_up = true ∧ p = true) ∨ v.sound_end_soon = true)
    (h2 : WAV_ENV_END_NB_SAMPLES ≤ usub32 v.cur_playing_pos (relPos v)) :
    releaseStep p v = resetFields v := by
  rw [releaseStep, if_pos h1, if_pos h2]

theorem advanceStep_of_lt {v : TSoundData}
    (h : v.cur_playing_pos < v.last_sample_pos) :
    advanceStep v = { v with cur_playing_pos := v.cur_playing_pos + 1 } := by
  rw [advanceStep, if_pos h]

theorem advanceStep_of_end {v : TSoundData}
    (h : ¬(v.cur_playing_pos < v.last_sample_pos)) :
    advanceStep v = v := by
  rw [advanceStep, if_neg h]

theorem voiceFrame_of_playing {p : Bool} {v : TSoundData}
    (h : v.playing = true) :
    voiceFrame p v = advanceStep (releaseStep p (armEndSoon v)) := by
  rw [voiceFrame, if_pos h]

theorem voiceFrame_of_rest {p : Bool} {v : TSoundData}
    (h : v.playing = false) : voiceFrame p v = v := by
  rw [voiceFrame, if_neg (by simp [h])]

theorem voiceFrames_fixed {p : Bool} {v : TSoundData} (k : Nat)
    (h : v.playing = false) : voiceFrames p k v = v :=
  Function.iterate_fixed (voiceFrame_of_rest h) k

theorem voiceFrames_add (p : Bool) (a b : Nat) (v : TSoundData) :
    voiceFrames p (a + b) v = voiceFrames p a (voiceFrames p b v) :=
  Function.iterate_add_apply (voiceFrame p) a b v

/-! Per-voice invariant preservation -/

theorem soundInv_triggerVoice {v : TSoundData} (amp : ℚ)
    (h : soundInv v) : soundInv (triggerVoice amp v) := by
  obtain ⟨⟨-, -⟩, h2⟩ := h
  exact ⟨⟨Nat.zero_le _, h2⟩, h2⟩

theorem soundInv_keyUpVoice {v : TSoundData}
    (h : soundInv v) : soundInv (keyUpVoice v) := h

theorem soundInv_pedalDownVoice {v : TSoundData}
    (h : soundInv v) : soundInv (pedalDownVoice v) := h

theorem soundInv_pedalUpVoice {v : TSoundData}
    (h : soundInv v) : soundInv (pedalUpVoice v) := h

theorem soundInv_armEndSoon {v : TSoundData}
    (h : soundInv v) : soundInv (armEndSoon v) := by
  unfold armEndSoon
  split_ifs with h1
  · exact h
  · exact h

theorem soundInv_releaseStep {p : Bool} {v : TSoundData}
    (h : soundInv v) : soundInv (releaseStep p v) := by
  obtain ⟨⟨-, hcl⟩, hfl⟩ := h
  unfold releaseStep resetFields
  split_ifs with h1 h2
  · exact ⟨⟨Nat.zero_le _, hfl⟩, hfl⟩
  · exact ⟨⟨Nat.zero_le _, hcl⟩, hfl⟩
  · exact ⟨⟨Nat.zero_le _, hcl⟩, hfl⟩

theorem soundInv_advanceStep {v : TSoundData}
    (h : soundInv v) : soundInv (advanceStep v) := by
  obtain ⟨⟨-, hcl⟩, hfl⟩ := h
  unfold advanceStep
  split_ifs with h1
  · exact ⟨⟨Nat.zero_le _, h1⟩, hfl⟩
  · exact ⟨⟨Nat.zero_le _, hcl⟩, hfl⟩

theorem soundInv_voiceFrame {p : Bool} {v : TSoundData}
    (h : soundInv v) : soundInv (voiceFrame p v) := by
  unfold voiceFrame
  split_ifs with h1
  · exact soundInv_advanceStep (soundInv_releaseStep (soundInv_armEndSoon h))
  · exact h

theorem stateInv_applyOp (op : PianoOp) {s : PianoState}
    (h : stateInv s) : stateInv (applyOp op s) := by
  intro i
  cases op with
  | msg key mt t =>
      simp only [applyOp]
      unfold manage_msg_received_in_normal_mode
      split_ifs with hk
      · cases mt with
        | keyDownMsg =>
            simp only [updateAt]
            split_ifs with hi
            · exact soundInv_triggerVoice _ (h i)
            · exact h i
        | keyUpMsg =>
            simp only [updateAt]
            split_ifs with hi
            · exact soundInv_keyUpVoice (h i)
            · exact h i
      · cases mt with
        | keyDownMsg =>
            simp only []
            split_ifs with hi
            · exact soundInv_pedalDownVoice (h i)
            · exact h i
        | keyUpMsg =>
            simp only []
            split_ifs with hi
            · exact soundInv_pedalUpVoice (h i)
            · exact h i
  | special idx =>
      simp only [applyOp]
      unfold play_special_sound
      simp only [updateAt]
      split_ifs with hi
      · exact soundInv_triggerVoice _ (h i)
      · exact h i
  | frame =>
      simp only [applyOp]
      unfold audioFrame
      simp only []
      split_ifs with hi
      · exact soundInv_voiceFrame (h i)
      · exact h i

theorem stateInv_applyOps (ops : List PianoOp) {s : PianoState}
    (h : stateInv s) : stateInv (applyOps ops s) := by
  induction ops generalizing s with
  | nil => exact h
  | cons op rest ih => exact ih (stateInv_applyOp op h)

/-! Phase lemmas for the audio engine -/

theorem armEndSoon_fire {v : TSoundData}
    (h : usub32 v.last_sample_pos v.cur_playing_pos ≤
        WAV_ENV_END_NB_SAMPLES ∧ v.sound_end_soon = false) :
    armEndSoon v = { v with
      sound_end_soon := true
      key_up_pos := v.cur_playing_pos
      pedal_up_pos := v.cur_playing_pos } := by
  rw [armEndSoon, if_pos h]

theorem relPos_le {v : TSoundData}
    (hk : v.key_up_pos ≤ v.cur_playing_pos)
    (hp : v.pedal_up_pos ≤ v.cur_playing_pos) :
    relPos v ≤ v.cur_playing_pos := by
  unfold relPos
  split_ifs with h
  · exact hp
  · exact hk

/-- Sustain frame: a playing voice that is neither releasing nor close to
the sample end just advances its read position. -/
theorem voiceFrame_sustain {p : Bool} {v : TSoundData}
    (hpl : v.playing = true) (hses : v.sound_end_soon = false)
    (hkey : v.key_up = false ∨ p = false)
    (hW : v.last_sample_pos < W32)
    (hgap : v.cur_playing_pos + WAV_ENV_END_NB_SAMPLES <
      v.last_sample_pos) :
    voiceFrame p v = { v with
      cur_playing_pos := v.cur_playing_pos + 1 } := by
  have hcl : v.cur_playing_pos ≤ v.last_sample_pos := by omega
  have hu : usub32 v.last_sample_pos v.cur_playing_pos =
      v.last_sample_pos - v.cur_playing_pos := usub32_of_le hcl hW
  rw [voiceFrame_of_playing hpl]
  rw [armEndSoon_skip (by rw [hu]; intro hx; omega)]
  rw [releaseStep_skip (by rcases hkey with h | h <;> simp [h, hses])]
  exact advanceStep_of_lt (by omega)

theorem voiceFrames_sustain {p : Bool} {v : TSoundData} (k : Nat)
    (hpl : v.playing = true) (hses : v.sound_end_soon = false)
    (hkey : v.key_up = false ∨ p = false)
    (hW : v.last_sample_pos < W32)
    (hgap : v.cur_playing_pos + k + WAV_ENV_END_NB_SAMPLES ≤
      v.last_sample_pos) :
    voiceFrames p k v = { v with
      cur_playing_pos := v.cur_playing_pos + k } := by
  induction k with
  | zero => rfl
  | succ k ih =>
      have hstep := ih (by omega)
      have h2 : voiceFrames p (k + 1) v =
          voiceFrame p (voiceFrames p k v) :=
        Function.iterate_succ_apply' (voiceFrame p) k v
      rw [h2, hstep]
      exact voiceFrame_sustain hpl hses hkey hW
        (by show v.cur_playing_pos + k + WAV_ENV_END_NB_SAMPLES <
              v.last_sample_pos
            omega)

/-- Release-ramp frame: the release is active, not yet complete, and the
end-soon pre-arm does not fire; the voice just advances. -/
theorem voiceFrame_ramp {p : Bool} {v : TSoundData}
    (hpl : v.playing = true)
    (hcond : (v.key_up = true ∧ p = true) ∨ v.sound_end_soon = true)
    (harm : ¬(usub32 v.last_sample_pos v.cur_playing_pos ≤
        WAV_ENV_END_NB_SAMPLES ∧ v.sound_end_soon = false))
    (hrp : relPos v ≤ v.cur_playing_pos)
    (hd : v.cur_playing_pos < relPos v + WAV_ENV_END_NB_SAMPLES)
    (hcl : v.cur_playing_pos < v.last_sample_pos)
    (hW : v.last_sample_pos < W32) :
    voiceFrame p v = { v with
      cur_playing_pos := v.cur_playing_pos + 1 } := by
  rw [voiceFrame_of_playing hpl, armEndSoon_skip harm]
  rw [releaseStep_noReset
    (by rw [usub32_of_le hrp (lt_trans hcl hW)]; omega)]
  exact advanceStep_of_lt hcl

/-- Iterated release ramp in the key-release case (no end-soon pre-arm,
enough samples remaining that the pre-arm never fires). -/
theorem voiceFrames_rampKey {v : TSoundData} (k : Nat)
    (hpl : v.playing = true) (hku : v.key_up = true)
    (hses : v.sound_end_soon = false)
    (hrp : relPos v ≤ v.cur_playing_pos)
    (hdk : v.cur_playing_pos + k ≤ relPos v + WAV_ENV_END_NB_SAMPLES)
    (hroom : relPos v + 2 * WAV_ENV_END_NB_SAMPLES < v.last_sample_pos)
    (hW : v.last_sample_pos < W32) :
    voiceFrames true k v = { v with
      cur_playing_pos := v.cur_playing_pos + k } := by
  induction k with
  | zero => rfl
  | succ k ih =>
      have hstep := ih (by omega)
      have h2 : voiceFrames true (k + 1) v =
          voiceFrame true (voiceFrames true k v) :=
        Function.iterate_succ_apply' (voiceFrame true) k v
      rw [h2, hstep]
      have hcur : v.cur_playing_pos + k ≤ v.last_sample_pos := by omega
      exact voiceFrame_ramp hpl (Or.inl ⟨hku, rfl⟩)
        (by
          show ¬(usub32 v.last_sample_pos (v.cur_playing_pos + k) ≤
            WAV_ENV_END_NB_SAMPLES ∧ v.sound_end_soon = false)
          rw [usub32_of_le hcur hW]
          intro hx
          omega)
        (by show relPos v ≤ v.cur_playing_pos + k; omega)
        (by show v.cur_playing_pos + k <
              relPos v + WAV_ENV_END_NB_SAMPLES
            omega)
        (by show v.cur_playing_pos + k < v.last_sample_pos; omega) hW

/-- Iterated release ramp in the end-soon case. -/
theorem voiceFrames_rampEndSoon {p : Bool} {v : TSoundData} (k : Nat)
    (hpl : v.playing = true) (hses : v.sound_end_soon = true)
    (hrp : relPos v ≤ v.cur_playing_pos)
    (hdk : v.cur_playing_pos + k ≤ relPos v + WAV_ENV_END_NB_SAMPLES)
    (hlast : v.cur_playing_pos + k ≤ v.last_sample_pos)
    (hW : v.last_sample_pos < W32) :
    voiceFrames p k v = { v with
      cur_playing_pos := v.cur_playing_pos + k } := by
  induction k with
  | zero => rfl
  | succ k ih =>
      have hstep := ih (by omega) (by omega)
      have h2 : voiceFrames p (k + 1) v =
          voiceFrame p (voiceFrames p k v) :=
        Function.iterate_succ_apply' (voiceFrame p) k v
      rw [h2, hstep]
      exact voiceFrame_ramp hpl (Or.inr hses)
        (by
          show ¬(usub32 v.last_sample_pos (v.cur_playing_pos + k) ≤
            WAV_ENV_END_NB_SAMPLES ∧ v.sound_end_soon = false)
          simp [hses])
        (by show relPos v ≤ v.cur_playing_pos + k; omega)
        (by show v.cur_playing_pos + k <
              relPos v + WAV_ENV_END_NB_SAMPLES
            omega)
        (by show v.cur_playing_pos + k < v.last_sample_pos; omega) hW

/-- Pre-arm frame near the natural sample end: the end-soon latch fires,
both release positions snapshot the current position, and the read
position still advances (release ramp factor 1 on this frame). -/
theorem voiceFrame_arm {p : Bool} {v : TSoundData}
    (hpl : v.playing = true) (hses : v.sound_end_soon = false)
    (hnear : v.last_sample_pos ≤
      v.cur_playing_pos + WAV_ENV_END_NB_SAMPLES)
    (hcl : v.cur_playing_pos < v.last_sample_pos)
    (hW : v.last_sample_pos < W32) :
    voiceFrame p v = { v with
      sound_end_soon := true
      key_up_pos := v.cur_playing_pos
      pedal_up_pos := v.cur_playing_pos
      cur_playing_pos := v.cur_playing_pos + 1 } := by
  have hcl' : v.cur_playing_pos ≤ v.last_sample_pos := le_of_lt hcl
  rw [voiceFrame_of_playing hpl]
  rw [armEndSoon_fire ⟨by rw [usub32_of_le hcl' hW]; omega, hses⟩]
  rw [releaseStep_noReset (v := { v with
      sound_end_soon := true
      key_up_pos := v.cur_playing_pos
      pedal_up_pos := v.cur_playing_pos })
    (by
      show ¬(WAV_ENV_END_NB_SAMPLES ≤
        usub32 v.cur_playing_pos
          (relPos { v with
            sound_end_soon := true
            key_up_pos := v.cur_playing_pos
            pedal_up_pos := v.cur_playing_pos }))
      have hr : relPos { v with
          sound_end_soon := true
          key_up_pos := v.cur_playing_pos
          pedal_up_pos := v.cur_playing_pos } = v.cur_playing_pos := by
        unfold relPos
        simp
      rw [hr, usub32_of_le le_rfl (lt_trans hcl hW)]
      omega)]
  exact advanceStep_of_lt hcl

/-- Reset frame: the release window has elapsed; the voice is
re-initialised and the trailing increment of the same frame leaves the
read position at `first_sample_pos + 1`. -/
theorem voiceFrame_resetFrame {p : Bool} {v : TSoundData}
    (hpl : v.playing = true)
    (hcond : (v.key_up = true ∧ p = true) ∨ v.sound_end_soon = true)
    (harm : ¬(usub32 v.last_sample_pos v.cur_playing_pos ≤
        WAV_ENV_END_NB_SAMPLES ∧ v.sound_end_soon = false))
    (hrp : relPos v ≤ v.cur_playing_pos)
    (hd : relPos v + WAV_ENV_END_NB_SAMPLES ≤ v.cur_playing_pos)
    (hcw : v.cur_playing_pos < W32)
    (hfl : v.first_sample_pos < v.last_sample_pos) :
    voiceFrame p v = postResetState v := by
  rw [voiceFrame_of_playing hpl, armEndSoon_skip harm]
  rw [releaseStep_reset hcond (by rw [usub32_of_le hrp hcw]; omega)]
  rw [advanceStep_of_lt (v := resetFields v) hfl]
  rfl

/-- The generic full release cycle: a key-released, pedal-released playing
voice reaches `postResetState` after `WAV_ENV_END_NB_SAMPLES + 1` frames. -/
theorem releaseCycleReset {v : TSoundData}
    (hpl : v.playing = true) (hku : v.key_up = true)
    (hses : v.sound_end_soon = false)
    (hkp : v.key_up_pos ≤ v.cur_playing_pos)
    (hpp : v.pedal_up_pos ≤ v.cur_playing_pos)
    (hd : v.cur_playing_pos ≤ relPos v + WAV_ENV_END_NB_SAMPLES)
    (hroom : relPos v + 2 * WAV_ENV_END_NB_SAMPLES < v.last_sample_pos)
    (hfl : v.first_sample_pos < v.last_sample_pos)
    (hW : v.last_sample_pos < W32) :
    voiceFrames true (WAV_ENV_END_NB_SAMPLES + 1) v = postResetState v := by
  have hrp : relPos v ≤ v.cur_playing_pos := relPos_le hkp hpp
  have hm : v.cur_playing_pos +
      (relPos v + WAV_ENV_END_NB_SAMPLES - v.cur_playing_pos) =
      relPos v + WAV_ENV_END_NB_SAMPLES := by omega
  have hsplit : WAV_ENV_END_NB_SAMPLES + 1 =
      (WAV_ENV_END_NB_SAMPLES -
        (relPos v + WAV_ENV_END_NB_SAMPLES - v.cur_playing_pos)) +
      (1 + (relPos v + WAV_ENV_END_NB_SAMPLES - v.cur_playing_pos)) := by
    omega
  rw [hsplit, voiceFrames_add, voiceFrames_add]
  have hramp := voiceFrames_rampKey
    (relPos v + WAV_ENV_END_NB_SAMPLES - v.cur_playing_pos)
    hpl hku hses hrp (by omega) hroom hW
  rw [hramp]
  have h1 : voiceFrames true 1 { v with
      cur_playing_pos := v.cur_playing_pos +
        (relPos v + WAV_ENV_END_NB_SAMPLES - v.cur_playing_pos) } =
      postResetState v := by
    have hle : v.cur_playing_pos +
        (relPos v + WAV_ENV_END_NB_SAMPLES - v.cur_playing_pos) ≤
        v.last_sample_pos := by omega
    have := voiceFrame_resetFrame (p := true) (v := { v with
      cur_playing_pos := v.cur_playing_pos +
        (relPos v + WAV_ENV_END_NB_SAMPLES - v.cur_playing_pos) })
      hpl (Or.inl ⟨hku, rfl⟩)
      (by
        show ¬(usub32 v.last_sample_pos
          (v.cur_playing_pos +
            (relPos v + WAV_ENV_END_NB_SAMPLES - v.cur_playing_pos)) ≤
          WAV_ENV_END_NB_SAMPLES ∧ v.sound_end_soon = false)
        rw [usub32_of_le hle hW]
        intro hx
        omega)
      (by
        show relPos v ≤ v.cur_playing_pos +
          (relPos v + WAV_ENV_END_NB_SAMPLES - v.cur_playing_pos)
        omega)
      (by
        show relPos v + WAV_ENV_END_NB_SAMPLES ≤ v.cur_playing_pos +
          (relPos v + WAV_ENV_END_NB_SAMPLES - v.cur_playing_pos)
        omega)
      (by
        show v.cur_playing_pos +
          (relPos v + WAV_ENV_END_NB_SAMPLES - v.cur_playing_pos) < W32
        omega)
      hfl
    exact this
  rw [h1]
  exact voiceFrames_fixed _ rfl

theorem voiceFrames_one (p : Bool) (v : TSoundData) :
    voiceFrames p 1 v = voiceFrame p v := rfl

theorem voiceContribution_of_rest (sample : Nat → Int) (p : Bool)
    {v : TSoundData} (h : v.playing = false) :
    voiceContribution sample p v = 0 := by
  unfold voiceContribution
  rw [if_neg (by simp [h])]

/-! ## Claim theorems -/

/-- Claim C1: for every voice, loading establishes
`0 ≤ cur_playing_pos ≤ last_sample_pos`, and every single dispatcher
operation (KeyDown, KeyUp, PedalDown, PedalUp, play-special-sound) and
every mixing-engine frame preserves this bound, hence it holds in every
state reachable after sample loading under any operation sequence. -/
theorem claim_c1_position_invariant :
    (∀ start nb v, soundInv (loadVoice start nb v)) ∧
    (∀ op : PianoOp, ∀ s : PianoState, stateInv s →
      stateInv (applyOp op s)) ∧
    (∀ ops : List PianoOp, ∀ s : PianoState, stateInv s → ∀ i,
      0 ≤ ((applyOps ops s).sounds i).cur_playing_pos ∧
      ((applyOps ops s).sounds i).cur_playing_pos ≤
        ((applyOps ops s).sounds i).last_sample_pos) := by
  refine ⟨?_, ?_, ?_⟩
  · intro start nb v
    exact ⟨⟨Nat.zero_le _, Nat.le_add_right _ _⟩, Nat.le_add_right _ _⟩
  · intro op s h
    exact stateInv_applyOp op h
  · intro ops s h i
    exact (stateInv_applyOps ops h i).1

/-- Witness for C1 at a concrete state and operation sequence. -/
theorem claim_c1_position_invariant_witness :
    ((applyOps [PianoOp.msg 3 EMsgType.keyDownMsg 500, PianoOp.frame,
        PianoOp.msg 85 EMsgType.keyDownMsg 0, PianoOp.special 0,
        PianoOp.frame] pianoAtRest).sounds 5).cur_playing_pos ≤
      ((applyOps [PianoOp.msg 3 EMsgType.keyDownMsg 500, PianoOp.frame,
        PianoOp.msg 85 EMsgType.keyDownMsg 0, PianoOp.special 0,
        PianoOp.frame] pianoAtRest).sounds 5).last_sample_pos :=
  (claim_c1_position_invariant.2.2
    [PianoOp.msg 3 EMsgType.keyDownMsg 500, PianoOp.frame,
      PianoOp.msg 85 EMsgType.keyDownMsg 0, PianoOp.special 0,
      PianoOp.frame] pianoAtRest
    (fun _ => (by decide : soundInv soundAtRest)) 5).2

/-- Claim C4: dispatching KeyDown on a note key unconditionally
(re)triggers the voice, whatever its prior state: volume from the
velocity curve, all three positions rewound to `first_sample_pos`,
`key_up` and `sound_end_soon` cleared, `playing` set. -/
theorem claim_c4_keydown_retrigger (key attack_time : Nat)
    (s : PianoState) (hkey : key ≠ PEDAL_KEY_IDX) :
    ((manage_msg_received_in_normal_mode key EMsgType.keyDownMsg
        attack_time s).sounds (NB_SPECIAL_SOUNDS + key)).volume =
      compute_volume attack_time ∧
    ((manage_msg_received_in_normal_mode key EMsgType.keyDownMsg
        attack_time s).sounds (NB_SPECIAL_SOUNDS + key)).cur_playing_pos =
      (s.sounds (NB_SPECIAL_SOUNDS + key)).first_sample_pos ∧
    ((manage_msg_received_in_normal_mode key EMsgType.keyDownMsg
        attack_time s).sounds (NB_SPECIAL_SOUNDS + key)).key_up_pos =
      (s.sounds (NB_SPECIAL_SOUNDS + key)).first_sample_pos ∧
    ((manage_msg_received_in_normal_mode key EMsgType.keyDownMsg
        attack_time s).sounds (NB_SPECIAL_SOUNDS + key)).pedal_up_pos =
      (s.sounds (NB_SPECIAL_SOUNDS + key)).first_sample_pos ∧
    ((manage_msg_received_in_normal_mode key EMsgType.keyDownMsg
        attack_time s).sounds (NB_SPECIAL_SOUNDS + key)).key_up = false ∧
    ((manage_msg_received_in_normal_mode key EMsgType.keyDownMsg
        attack_time s).sounds (NB_SPECIAL_SOUNDS + key)).sound_end_soon =
      false ∧
    ((manage_msg_received_in_normal_mode key EMsgType.keyDownMsg
        attack_time s).sounds (NB_SPECIAL_SOUNDS + key)).playing = true := by
  have h : (manage_msg_received_in_normal_mode key EMsgType.keyDownMsg
      attack_time s).sounds (NB_SPECIAL_SOUNDS + key) =
      keyDownVoice attack_time (s.sounds (NB_SPECIAL_SOUNDS + key)) := by
    unfold manage_msg_received_in_normal_mode
    rw [if_pos hkey]
    show updateAt (NB_SPECIAL_SOUNDS + key) (keyDownVoice attack_time)
      s.sounds (NB_SPECIAL_SOUNDS + key) = _
    unfold updateAt
    rw [if_pos rfl]
  rw [h]
  exact ⟨rfl, rfl, rfl, rfl, rfl, rfl, rfl⟩

/-- Witness for C4 on a concrete state where the note is mid-release. -/
theorem claim_c4_keydown_retrigger_witness :
    ((manage_msg_received_in_normal_mode 3 EMsgType.keyDownMsg 20000
        ⟨true, fun _ => demoVoiceReleased⟩).sounds 5).playing = true :=
  (claim_c4_keydown_retrigger 3 20000 ⟨true, fun _ => demoVoiceReleased⟩
    (by decide)).2.2.2.2.2.2

/-- Claim C6: the velocity curve is the clamped linear model:
value 1 at `MIN_ATTACK_TIME`, 1/10 at `MAX_ATTACK_TIME`, always inside
`[1/10, 1]`, and monotonically non-increasing in the attack time. -/
theorem claim_c6_volume_curve :
    compute_volume MIN_ATTACK_TIME = 1 ∧
    compute_volume MAX_ATTACK_TIME = 1/10 ∧
    (∀ t, 1/10 ≤ compute_volume t ∧ compute_volume t ≤ 1) ∧
    (∀ t1 t2, t1 ≤ t2 → compute_volume t2 ≤ compute_volume t1) := by
  refine ⟨by norm_num [compute_volume, MIN_ATTACK_TIME, MAX_ATTACK_TIME],
    by norm_num [compute_volume, MIN_ATTACK_TIME, MAX_ATTACK_TIME], ?_, ?_⟩
  · intro t
    simp only [compute_volume, MAX_ATTACK_TIME, MIN_ATTACK_TIME]
    split_ifs with h1 h2
    · constructor <;> norm_num
    · constructor <;> norm_num
    · push_cast at h1 h2
      constructor <;> [linarith; linarith]
  · intro t1 t2 h
    have hc : (t1 : ℚ) ≤ (t2 : ℚ) := Nat.cast_le.mpr h
    simp only [compute_volume, MAX_ATTACK_TIME, MIN_ATTACK_TIME]
    split_ifs with h1 h2 h3 h4 h5 h6 h7 h8 <;>
      push_cast at * <;> linarith

/-- Witness for C6's monotonicity hypothesis at concrete times. -/
theorem claim_c6_volume_curve_witness :
    compute_volume 20000 ≤ compute_volume 15000 :=
  claim_c6_volume_curve.2.2.2 15000 20000 (by norm_num)

/-- Claim C7: the key mapping sends raw 6 to 0, raw 48 to the reserved
pedal index, every other connected raw address `r` to the dense index
`r + 1 - r / 7` (in particular 7 to 7), notes stay below the pedal index,
and on the valid raw domain the map is a bijection onto `0..85`. -/
theorem claim_c7_key_mapping :
    arduino_to_piano_key_index 6 = 0 ∧
    arduino_to_piano_key_index 48 = PEDAL_KEY_IDX ∧
    arduino_to_piano_key_index 7 = 7 ∧
    (∀ r, r ≤ 97 → validArduinoKey r → r ≠ 6 → r ≠ 48 →
      arduino_to_piano_key_index r = r + 1 - r / 7) ∧
    (∀ r, r ≤ 97 → validArduinoKey r → r ≠ 48 →
      arduino_to_piano_key_index r ≤ 84) ∧
    (∀ r1, r1 ≤ 97 → ∀ r2, r2 ≤ 97 → validArduinoKey r1 →
      validArduinoKey r2 →
      arduino_to_piano_key_index r1 = arduino_to_piano_key_index r2 →
      r1 = r2) ∧
    (∀ v, v ≤ 85 → validArduinoKey (pianoToArduinoKeyIndex v) ∧
      arduino_to_piano_key_index (pianoToArduinoKeyIndex v) = v) :=
  ⟨rfl, rfl, rfl, by decide, by decide,
    by set_option maxRecDepth 4000 in decide, by decide⟩

/-- Witness for C7 at concrete raw addresses and logical indices. -/
theorem claim_c7_key_mapping_witness :
    arduino_to_piano_key_index 10 = 10 + 1 - 10 / 7 ∧
    arduino_to_piano_key_index 10 ≤ 84 ∧
    validArduinoKey (pianoToArduinoKeyIndex 7) ∧
    arduino_to_piano_key_index (pianoToArduinoKeyIndex 7) = 7 :=
  ⟨claim_c7_key_mapping.2.2.2.1 10 (by decide) (by decide) (by decide)
      (by decide),
    claim_c7_key_mapping.2.2.2.2.1 10 (by decide) (by decide) (by decide),
    (claim_c7_key_mapping.2.2.2.2.2.2 7 (by decide)).1,
    (claim_c7_key_mapping.2.2.2.2.2.2 7 (by decide)).2⟩

/-- Claim C10 (amended): every parser-accepted two-digit raw key index up
to 98 dispatches inside the Voice Table: the mapping yields the pedal
index or a note slot `NB_SPECIAL_SOUNDS + v` below `NB_SOUNDS`. -/
theorem claim_c10_amended_theorem :
    (∀ d1 d2 : Fin 10, parseTwoDigitKey d1 d2 ≤ 99) ∧
    (∀ r, r ≤ 98 →
      arduino_to_piano_key_index r = PEDAL_KEY_IDX ∨
      NB_SPECIAL_SOUNDS + arduino_to_piano_key_index r < NB_SOUNDS) := by
  constructor
  · decide
  · decide

/-- Witness for C10 at the largest safe raw index. -/
theorem claim_c10_amended_theorem_witness :
    arduino_to_piano_key_index 98 = PEDAL_KEY_IDX ∨
    NB_SPECIAL_SOUNDS + arduino_to_piano_key_index 98 < NB_SOUNDS :=
  claim_c10_amended_theorem.2 98 (by decide)

/-- Counterexample to C10 as stated: the parser accepts raw index 99
(digits "99"), which maps to 86, is not the pedal, and indexes
`g_sounds[NB_SPECIAL_SOUNDS + 86] = g_sounds[88]`, outside the 87-entry
Voice Table. -/
theorem claim_c10_counterexample :
    parseTwoDigitKey 9 9 = 99 ∧
    arduino_to_piano_key_index 99 = 86 ∧
    arduino_to_piano_key_index 99 ≠ PEDAL_KEY_IDX ∧
    ¬(NB_SPECIAL_SOUNDS + arduino_to_piano_key_index 99 < NB_SOUNDS) := by
  decide

/-- Sequential append-only placement: each loaded sound starts where the
previous one ended. -/
theorem loadRegions_append (pos : Nat) (l1 l2 : List Nat) :
    loadRegions pos (l1 ++ l2) =
      loadRegions pos l1 ++ loadRegions (pos + l1.sum) l2 := by
  induction l1 generalizing pos with
  | nil => simp [loadRegions]
  | cons a t ih =>
      simp [loadRegions, ih, Nat.add_assoc]

theorem loadRegions_chain (pos : Nat) (l : List Nat) :
    List.Chain' (fun a b : Nat × Nat × Nat => b.1 = a.2.2)
      (loadRegions pos l) := by
  induction l generalizing pos with
  | nil => simp [loadRegions]
  | cons a t ih =>
      cases t with
      | nil => simp [loadRegions]
      | cons b t2 =>
          have h2 := ih (pos + a)
          rw [loadRegions] at h2
          rw [loadRegions, loadRegions, List.chain'_cons]
          exact ⟨rfl, h2⟩

/-- Claim C9 (amended): loading is sequential and append-only — each
sound's region starts exactly where the previous one ended, special sounds
are placed first from position 0 and the notes continue at
`g_first_note_position` — and sizes are recorded verbatim; the code
performs no capacity check. -/
theorem claim_c9_amended_theorem :
    (∀ pos nb rest, loadRegions pos (nb :: rest) =
      (pos, nb, pos + nb) :: loadRegions (pos + nb) rest) ∧
    (∀ pos l1 l2, loadRegions pos (l1 ++ l2) =
      loadRegions pos l1 ++ loadRegions (pos + l1.sum) l2) ∧
    (∀ sp no, loadAllSounds sp no = loadRegions 0 (sp ++ no)) ∧
    (∀ pos l, List.Chain' (fun a b : Nat × Nat × Nat => b.1 = a.2.2)
      (loadRegions pos l)) :=
  ⟨fun _ _ _ => rfl, loadRegions_append,
    fun sp no => by
      rw [loadRegions_append]
      simp [loadAllSounds, firstNotePosition],
    loadRegions_chain⟩

/-- Claim C2 (amended): a playing, key-released voice with the pedal
released and enough samples remaining is reset exactly once: the first
`RELEASE_WINDOW` frames (from the later release position) only ramp, the
`RELEASE_WINDOW + 1`-th frame re-initialises every field — except that the
same frame's trailing increment leaves `cur_playing_pos` at
`first_sample_pos + 1` — and the engine leaves the reset voice unchanged
ever after. -/
theorem claim_c2_amended_theorem (v : TSoundData)
    (hpl : v.playing = true) (hku : v.key_up = true)
    (hses : v.sound_end_soon = false)
    (hkp : v.key_up_pos ≤ v.cur_playing_pos)
    (hpp : v.pedal_up_pos ≤ v.cur_playing_pos)
    (hd : v.cur_playing_pos ≤ relPos v + WAV_ENV_END_NB_SAMPLES)
    (hroom : relPos v + 2 * WAV_ENV_END_NB_SAMPLES < v.last_sample_pos)
    (hfl : v.first_sample_pos < v.last_sample_pos)
    (hW : v.last_sample_pos < W32) :
    (∀ k, v.cur_playing_pos + k ≤ relPos v + WAV_ENV_END_NB_SAMPLES →
      voiceFrames true k v =
        { v with cur_playing_pos := v.cur_playing_pos + k }) ∧
    voiceFrames true (WAV_ENV_END_NB_SAMPLES + 1) v = postResetState v ∧
    (∀ p', voiceFrame p' (postResetState v) = postResetState v) := by
  refine ⟨?_, ?_, ?_⟩
  · intro k hk
    exact voiceFrames_rampKey k hpl hku hses (relPos_le hkp hpp) hk hroom hW
  · exact releaseCycleReset hpl hku hses hkp hpp hd hroom hfl hW
  · intro p'
    exact voiceFrame_of_rest rfl

/-- Witness for C2 on a concrete freshly released voice. -/
theorem claim_c2_amended_theorem_witness :
    voiceFrames true (WAV_ENV_END_NB_SAMPLES + 1) demoVoiceReleased =
      postResetState demoVoiceReleased ∧
    voiceFrames true 100 demoVoiceReleased =
      { demoVoiceReleased with cur_playing_pos := 600 } ∧
    voiceFrame false (postResetState demoVoiceReleased) =
      postResetState demoVoiceReleased := by
  have h := claim_c2_amended_theorem demoVoiceReleased rfl rfl rfl
    (by decide) (by decide) (by decide) (by decide) (by decide) (by decide)
  exact ⟨h.2.1, h.1 100 (by decide), h.2.2 false⟩

/-- Counterexample to C2 as stated: a freshly released voice is not yet
reset after `RELEASE_WINDOW` frames (it still plays), and after the
actual reset frame `cur_playing_pos` is `first_sample_pos + 1`, not
`first_sample_pos` as claimed. -/
theorem claim_c2_counterexample :
    (voiceFrames true WAV_ENV_END_NB_SAMPLES
      demoVoiceReleased).playing = true ∧
    (voiceFrames true (WAV_ENV_END_NB_SAMPLES + 1)
        demoVoiceReleased).cur_playing_pos ≠
      demoVoiceReleased.first_sample_pos := by
  constructor
  · have h := voiceFrames_rampKey (v := demoVoiceReleased)
      WAV_ENV_END_NB_SAMPLES rfl rfl rfl (by decide) (by decide)
      (by decide) (by decide)
    rw [h]
    rfl
  · have h := releaseCycleReset (v := demoVoiceReleased) rfl rfl rfl
      (by decide) (by decide) (by decide) (by decide) (by decide)
      (by decide)
    rw [h]
    decide

/-- Claim C3: with the key released but the pedal held down, the engine
neither ramps nor resets a playing voice: for any number of frames within
the remaining sample length, state evolution is a pure position advance,
and (past the attack window) the mixed contribution is the full
volume-scaled sample with no release factor. -/
theorem claim_c3_pedal_defers_release (v : TSoundData)
    (sample : Nat → Int) (k : Nat)
    (hpl : v.playing = true) (hku : v.key_up = true)
    (hses : v.sound_end_soon = false)
    (hW : v.last_sample_pos < W32)
    (hgap : v.cur_playing_pos + k + WAV_ENV_END_NB_SAMPLES <
      v.last_sample_pos) :
    voiceFrames false k v =
      { v with cur_playing_pos := v.cur_playing_pos + k } ∧
    (v.first_sample_pos + WAV_ENV_START_NB_SAMPLES ≤ v.cur_playing_pos →
      voiceContribution sample false (voiceFrames false k v) =
        ((Int.tdiv (sample (v.cur_playing_pos + k))
          (MAX_NB_SIMULTANEOUS_NOTES : Int) : ℚ) / 32767) * v.volume) := by
  have h1 : voiceFrames false k v =
      { v with cur_playing_pos := v.cur_playing_pos + k } :=
    voiceFrames_sustain k hpl hses (Or.inr rfl) hW (le_of_lt hgap)
  refine ⟨h1, fun hattack => ?_⟩
  rw [h1]
  have hcw : v.cur_playing_pos + k < W32 := by omega
  have hfle : v.first_sample_pos ≤ v.cur_playing_pos + k := by omega
  have hatt : ¬(usub32 (v.cur_playing_pos + k) v.first_sample_pos <
      WAV_ENV_START_NB_SAMPLES) := by
    rw [usub32_of_le hfle hcw]
    omega
  have hclk : v.cur_playing_pos + k ≤ v.last_sample_pos := by omega
  have harm : armEndSoon { v with
      cur_playing_pos := v.cur_playing_pos + k } =
      { v with cur_playing_pos := v.cur_playing_pos + k } :=
    armEndSoon_skip (by
      show ¬(usub32 v.last_sample_pos (v.cur_playing_pos + k) ≤
        WAV_ENV_END_NB_SAMPLES ∧ v.sound_end_soon = false)
      rw [usub32_of_le hclk hW]
      intro hx
      omega)
  unfold voiceContribution
  rw [harm]
  rw [if_pos (show ({ v with
      cur_playing_pos := v.cur_playing_pos + k } :
      TSoundData).playing = true from hpl)]
  dsimp only
  rw [if_neg hatt]
  rw [if_neg (show ¬((v.key_up = true ∧ false = true) ∨
      v.sound_end_soon = true) by simp [hses])]

/-- Witness for C3 on a concrete sustained voice, 1000 frames. -/
theorem claim_c3_pedal_defers_release_witness :
    voiceFrames false 1000 demoVoiceSustained =
      { demoVoiceSustained with cur_playing_pos := 1500 } ∧
    voiceContribution (fun _ => 12345) false
      (voiceFrames false 1000 demoVoiceSustained) =
      ((Int.tdiv 12345 (MAX_NB_SIMULTANEOUS_NOTES : Int) : ℚ) / 32767) *
        demoVoiceSustained.volume := by
  have h := claim_c3_pedal_defers_release demoVoiceSustained
    (fun _ => 12345) 1000 rfl rfl rfl (by decide) (by decide)
  exact ⟨h.1, h.2 (by decide)⟩

/-- Claim C5 (amended): a voice whose sample is at least the release
window long, once triggered and left alone, stays playing while reading
each of its `nb_samples` samples in order, and on frame `nb_samples + 1`
the pre-armed release completes: the voice is back at rest
(`playing = false`), stays there under further frames, and contributes
silence. -/
theorem claim_c5_triggered_runs_to_rest (b : TSoundData) (t : Nat)
    (p : Bool)
    (hlb : b.last_sample_pos = b.first_sample_pos + b.nb_samples)
    (hnb : WAV_ENV_END_NB_SAMPLES ≤ b.nb_samples)
    (hW : b.last_sample_pos < W32) :
    (∀ k, k ≤ b.nb_samples →
      (voiceFrames p k (keyDownVoice t b)).playing = true ∧
      (voiceFrames p k (keyDownVoice t b)).cur_playing_pos =
        b.first_sample_pos + k) ∧
    voiceFrames p (b.nb_samples + 1) (keyDownVoice t b) =
      postResetState (keyDownVoice t b) ∧
    (∀ p', voiceFrame p' (postResetState (keyDownVoice t b)) =
      postResetState (keyDownVoice t b)) ∧
    (∀ sample p', voiceContribution sample p'
      (postResetState (keyDownVoice t b)) = 0) := by
  have hWpos : 0 < WAV_ENV_END_NB_SAMPLES := by decide
  have hP1 : ∀ k, k ≤ b.nb_samples - WAV_ENV_END_NB_SAMPLES →
      voiceFrames p k (keyDownVoice t b) =
        { keyDownVoice t b with
          cur_playing_pos := b.first_sample_pos + k } := by
    intro k hk
    exact voiceFrames_sustain k rfl rfl (Or.inl rfl) hW
      (by
        show b.first_sample_pos + k + WAV_ENV_END_NB_SAMPLES ≤
          b.last_sample_pos
        omega)
  have hP2 : voiceFrame p
      { keyDownVoice t b with
        cur_playing_pos := b.first_sample_pos +
          (b.nb_samples - WAV_ENV_END_NB_SAMPLES) } =
      { keyDownVoice t b with
        sound_end_soon := true
        key_up_pos := b.first_sample_pos +
          (b.nb_samples - WAV_ENV_END_NB_SAMPLES)
        pedal_up_pos := b.first_sample_pos +
          (b.nb_samples - WAV_ENV_END_NB_SAMPLES)
        cur_playing_pos := b.first_sample_pos +
          (b.nb_samples - WAV_ENV_END_NB_SAMPLES) + 1 } := by
    exact voiceFrame_arm rfl rfl
      (by
        show b.last_sample_pos ≤ b.first_sample_pos +
          (b.nb_samples - WAV_ENV_END_NB_SAMPLES) +
          WAV_ENV_END_NB_SAMPLES
        omega)
      (by
        show b.first_sample_pos +
          (b.nb_samples - WAV_ENV_END_NB_SAMPLES) < b.last_sample_pos
        omega)
      hW
  have hrelB : relPos
      { keyDownVoice t b with
        sound_end_soon := true
        key_up_pos := b.first_sample_pos +
          (b.nb_samples - WAV_ENV_END_NB_SAMPLES)
        pedal_up_pos := b.first_sample_pos +
          (b.nb_samples - WAV_ENV_END_NB_SAMPLES)
        cur_playing_pos := b.first_sample_pos +
          (b.nb_samples - WAV_ENV_END_NB_SAMPLES) + 1 } =
      b.first_sample_pos + (b.nb_samples - WAV_ENV_END_NB_SAMPLES) := by
    unfold relPos
    exact if_neg (lt_irrefl _)
  have hP3 : ∀ j, j + 1 ≤ WAV_ENV_END_NB_SAMPLES →
      voiceFrames p j
        { keyDownVoice t b with
          sound_end_soon := true
          key_up_pos := b.first_sample_pos +
            (b.nb_samples - WAV_ENV_END_NB_SAMPLES)
          pedal_up_pos := b.first_sample_pos +
            (b.nb_samples - WAV_ENV_END_NB_SAMPLES)
          cur_playing_pos := b.first_sample_pos +
            (b.nb_samples - WAV_ENV_END_NB_SAMPLES) + 1 } =
        { keyDownVoice t b with
          sound_end_soon := true
          key_up_pos := b.first_sample_pos +
            (b.nb_samples - WAV_ENV_END_NB_SAMPLES)
          pedal_up_pos := b.first_sample_pos +
            (b.nb_samples - WAV_ENV_END_NB_SAMPLES)
          cur_playing_pos := b.first_sample_pos +
            (b.nb_samples - WAV_ENV_END_NB_SAMPLES) + 1 + j } := by
    intro j hj
    exact voiceFrames_rampEndSoon j rfl rfl
      (by
        show relPos _ ≤ b.first_sample_pos +
          (b.nb_samples - WAV_ENV_END_NB_SAMPLES) + 1
        rw [hrelB]
        omega)
      (by
        show b.first_sample_pos +
          (b.nb_samples - WAV_ENV_END_NB_SAMPLES) + 1 + j ≤
          relPos _ + WAV_ENV_END_NB_SAMPLES
        rw [hrelB]
        omega)
      (by
        show b.first_sample_pos +
          (b.nb_samples - WAV_ENV_END_NB_SAMPLES) + 1 + j ≤
          b.last_sample_pos
        omega)
      hW
  have hP3' := hP3 (WAV_ENV_END_NB_SAMPLES - 1) (by omega)
  rw [show b.first_sample_pos +
      (b.nb_samples - WAV_ENV_END_NB_SAMPLES) + 1 +
      (WAV_ENV_END_NB_SAMPLES - 1) =
      b.first_sample_pos + b.nb_samples from by omega] at hP3'
  have hrelC : relPos
      { keyDownVoice t b with
        sound_end_soon := true
        key_up_pos := b.first_sample_pos +
          (b.nb_samples - WAV_ENV_END_NB_SAMPLES)
        pedal_up_pos := b.first_sample_pos +
          (b.nb_samples - WAV_ENV_END_NB_SAMPLES)
        cur_playing_pos := b.first_sample_pos + b.nb_samples } =
      b.first_sample_pos + (b.nb_samples - WAV_ENV_END_NB_SAMPLES) := by
    unfold relPos
    exact if_neg (lt_irrefl _)
  have hP4 : voiceFrame p
      { keyDownVoice t b with
        sound_end_soon := true
        key_up_pos := b.first_sample_pos +
          (b.nb_samples - WAV_ENV_END_NB_SAMPLES)
        pedal_up_pos := b.first_sample_pos +
          (b.nb_samples - WAV_ENV_END_NB_SAMPLES)
        cur_playing_pos := b.first_sample_pos + b.nb_samples } =
      postResetState (keyDownVoice t b) := by
    exact voiceFrame_resetFrame rfl (Or.inr rfl)
      (by
        show ¬(usub32 b.last_sample_pos
          (b.first_sample_pos + b.nb_samples) ≤
          WAV_ENV_END_NB_SAMPLES ∧ true = false)
        simp)
      (by
        show relPos _ ≤ b.first_sample_pos + b.nb_samples
        rw [hrelC]
        omega)
      (by
        show relPos _ + WAV_ENV_END_NB_SAMPLES ≤
          b.first_sample_pos + b.nb_samples
        rw [hrelC]
        omega)
      (by show b.first_sample_pos + b.nb_samples < W32; omega)
      (by show b.first_sample_pos < b.last_sample_pos; omega)
  have e1 : voiceFrames p
      (1 + (b.nb_samples - WAV_ENV_END_NB_SAMPLES))
      (keyDownVoice t b) =
      { keyDownVoice t b with
        sound_end_soon := true
        key_up_pos := b.first_sample_pos +
          (b.nb_samples - WAV_ENV_END_NB_SAMPLES)
        pedal_up_pos := b.first_sample_pos +
          (b.nb_samples - WAV_ENV_END_NB_SAMPLES)
        cur_playing_pos := b.first_sample_pos +
          (b.nb_samples - WAV_ENV_END_NB_SAMPLES) + 1 } := by
    rw [voiceFrames_add,
      hP1 (b.nb_samples - WAV_ENV_END_NB_SAMPLES) le_rfl,
      voiceFrames_one, hP2]
  refine ⟨?_, ?_, ?_, ?_⟩
  · intro k hk
    by_cases hkk : k ≤ b.nb_samples - WAV_ENV_END_NB_SAMPLES
    · rw [hP1 k hkk]
      exact ⟨rfl, rfl⟩
    · have hke : voiceFrames p k (keyDownVoice t b) =
          { keyDownVoice t b with
            sound_end_soon := true
            key_up_pos := b.first_sample_pos +
              (b.nb_samples - WAV_ENV_END_NB_SAMPLES)
            pedal_up_pos := b.first_sample_pos +
              (b.nb_samples - WAV_ENV_END_NB_SAMPLES)
            cur_playing_pos := b.first_sample_pos +
              (b.nb_samples - WAV_ENV_END_NB_SAMPLES) + 1 +
              (k - (b.nb_samples - WAV_ENV_END_NB_SAMPLES) - 1) } := by
        conv_lhs => rw [show k =
          (k - (b.nb_samples - WAV_ENV_END_NB_SAMPLES) - 1) +
          (1 + (b.nb_samples - WAV_ENV_END_NB_SAMPLES)) from by omega]
        rw [voiceFrames_add, e1,
          hP3 (k - (b.nb_samples - WAV_ENV_END_NB_SAMPLES) - 1)
            (by omega)]
      rw [hke]
      refine ⟨rfl, ?_⟩
      show b.first_sample_pos + (b.nb_samples - WAV_ENV_END_NB_SAMPLES) +
        1 + (k - (b.nb_samples - WAV_ENV_END_NB_SAMPLES) - 1) =
        b.first_sample_pos + k
      omega
  · conv_lhs => rw [show b.nb_samples + 1 = 1 +
      ((WAV_ENV_END_NB_SAMPLES - 1) +
        (1 + (b.nb_samples - WAV_ENV_END_NB_SAMPLES))) from by omega]
    rw [voiceFrames_add, voiceFrames_add, e1, hP3', voiceFrames_one, hP4]
  · intro p'
    exact voiceFrame_of_rest rfl
  · intro sample p'
    exact voiceContribution_of_rest sample p' rfl

/-- Witness for C5 on a concrete 20000-sample note. -/
theorem claim_c5_triggered_runs_to_rest_witness :
    (voiceFrames true 15000 (keyDownVoice 30000 demoBaseNote)).playing =
      true ∧
    (voiceFrames true 15000
        (keyDownVoice 30000 demoBaseNote)).cur_playing_pos = 15000 ∧
    voiceFrames true 20001 (keyDownVoice 30000 demoBaseNote) =
      postResetState (keyDownVoice 30000 demoBaseNote) ∧
    voiceContribution (fun _ => 100) false
      (postResetState (keyDownVoice 30000 demoBaseNote)) = 0 := by
  have h := claim_c5_triggered_runs_to_rest demoBaseNote 30000 true
    (by decide) (by decide) (by decide)
  exact ⟨(h.1 15000 (by decide)).1, (h.1 15000 (by decide)).2,
    h.2.1, h.2.2.2 (fun _ => 100) false⟩

/-- Counterexample to C5 as stated: a triggered one-sample voice (shorter
than the release window) never reaches rest — after 20000 frames it is
still `playing`, stuck at its last sample position forever. -/
theorem claim_c5_counterexample :
    (voiceFrames true 20000
      (keyDownVoice MIN_ATTACK_TIME shortBaseNote)).playing = true := by
  have h1 : voiceFrames true 1 (keyDownVoice MIN_ATTACK_TIME
      shortBaseNote) =
      { keyDownVoice MIN_ATTACK_TIME shortBaseNote with
        sound_end_soon := true
        key_up_pos := 0
        pedal_up_pos := 0
        cur_playing_pos := 1 } := by
    rw [voiceFrames_one]
    exact voiceFrame_arm rfl rfl (by decide) (by decide) (by decide)
  have h2 : voiceFrame true
      ({ keyDownVoice MIN_ATTACK_TIME shortBaseNote with
        sound_end_soon := true
        key_up_pos := 0
        pedal_up_pos := 0
        cur_playing_pos := 1 }) =
      { keyDownVoice MIN_ATTACK_TIME shortBaseNote with
        sound_end_soon := true
        key_up_pos := 0
        pedal_up_pos := 0
        cur_playing_pos := 1 } := by
    rw [voiceFrame_of_playing rfl, armEndSoon_skip (by decide),
      releaseStep_noReset (by decide), advanceStep_of_end (by decide)]
  rw [show (20000 : Nat) = 19999 + 1 from rfl, voiceFrames_add, h1]
  rw [show voiceFrames true 19999
      ({ keyDownVoice MIN_ATTACK_TIME shortBaseNote with
        sound_end_soon := true
        key_up_pos := 0
        pedal_up_pos := 0
        cur_playing_pos := 1 }) =
      { keyDownVoice MIN_ATTACK_TIME shortBaseNote with
        sound_end_soon := true
        key_up_pos := 0
        pedal_up_pos := 0
        cur_playing_pos := 1 } from
    Function.iterate_fixed h2 19999]
  rfl

/-- Claim C8 (amended): in the MIDI track-event loop, only Note-On events
reach the dispatcher (velocity > 0 triggers the note, velocity 0 marks it
key-up); a Note-Off event — with an explicit status byte or through
running status — merely consumes its two data bytes and leaves the Voice
Table untouched; meta events skip their declared length, sysex events
skip only the status byte, and the remaining channel events consume their
data bytes, all without touching the Voice Table. -/
theorem claim_c8_amended_theorem (data : Nat → Nat)
    (s : MidiTrackState) :
    (data (midiEventStart data s) / 16 = 8 →
      (processMidiEvent data s).sounds = s.sounds ∧
      (processMidiEvent data s).idx = midiEventStart data s + 3) ∧
    (data (midiEventStart data s) = 255 →
      (processMidiEvent data s).sounds = s.sounds) ∧
    (240 ≤ data (midiEventStart data s) →
      data (midiEventStart data s) ≤ 247 →
      (processMidiEvent data s).sounds = s.sounds ∧
      (processMidiEvent data s).idx = midiEventStart data s + 1) ∧
    ((data (midiEventStart data s) / 16 = 10 ∨
      data (midiEventStart data s) / 16 = 11 ∨
      data (midiEventStart data s) / 16 = 14) →
      (processMidiEvent data s).sounds = s.sounds ∧
      (processMidiEvent data s).idx = midiEventStart data s + 3) ∧
    ((data (midiEventStart data s) / 16 = 12 ∨
      data (midiEventStart data s) / 16 = 13) →
      (processMidiEvent data s).sounds = s.sounds ∧
      (processMidiEvent data s).idx = midiEventStart data s + 2) ∧
    (data (midiEventStart data s) / 16 = 9 →
      data (midiEventStart data s + 2) ≠ 0 →
      (processMidiEvent data s).sounds =
        start_playing_a_note
          (midiKeyTransform (data (midiEventStart data s + 1)))
          ((data (midiEventStart data s + 2) : ℚ) / 80) s.sounds) ∧
    (data (midiEventStart data s) / 16 = 9 →
      data (midiEventStart data s + 2) = 0 →
      (processMidiEvent data s).sounds =
        stop_playing_a_note
          (midiKeyTransform (data (midiEventStart data s + 1)))
          s.sounds) ∧
    (data (midiEventStart data s) < 128 → s.running_status = 128 →
      (processMidiEvent data s).sounds = s.sounds ∧
      (processMidiEvent data s).idx = midiEventStart data s + 2) := by
  simp only [midiEventStart]
  refine ⟨?_, ?_, ?_, ?_, ?_, ?_, ?_, ?_⟩
  · intro hb
    have h16 : data (s.idx + (midi_decode_var_length_param data
        s.idx).2) / 16 * 16 = 128 := by omega
    simp only [processMidiEvent]
    rw [if_neg (by omega : ¬(data (s.idx +
      (midi_decode_var_length_param data s.idx).2) = 255))]
    rw [if_neg (by omega : ¬(240 ≤ data (s.idx +
        (midi_decode_var_length_param data s.idx).2) ∧
      data (s.idx + (midi_decode_var_length_param data s.idx).2) ≤ 247))]
    simp only [h16]
    norm_num
  · intro hb
    simp only [processMidiEvent]
    rw [if_pos hb]
  · intro h1 h2
    simp only [processMidiEvent]
    rw [if_neg (by omega : ¬(data (s.idx +
      (midi_decode_var_length_param data s.idx).2) = 255))]
    rw [if_pos ⟨h1, h2⟩]
    exact ⟨rfl, rfl⟩
  · intro hb
    have h16 : data (s.idx + (midi_decode_var_length_param data
        s.idx).2) / 16 * 16 = 160 ∨
        data (s.idx + (midi_decode_var_length_param data
        s.idx).2) / 16 * 16 = 176 ∨
        data (s.idx + (midi_decode_var_length_param data
        s.idx).2) / 16 * 16 = 224 := by omega
    simp only [processMidiEvent]
    rw [if_neg (by omega : ¬(data (s.idx +
      (midi_decode_var_length_param data s.idx).2) = 255))]
    rw [if_neg (by omega : ¬(240 ≤ data (s.idx +
        (midi_decode_var_length_param data s.idx).2) ∧
      data (s.idx + (midi_decode_var_length_param data s.idx).2) ≤ 247))]
    rcases h16 with h16 | h16 | h16 <;> simp only [h16] <;> norm_num
  · intro hb
    have h16 : data (s.idx + (midi_decode_var_length_param data
        s.idx).2) / 16 * 16 = 192 ∨
        data (s.idx + (midi_decode_var_length_param data
        s.idx).2) / 16 * 16 = 208 := by omega
    simp only [processMidiEvent]
    rw [if_neg (by omega : ¬(data (s.idx +
      (midi_decode_var_length_param data s.idx).2) = 255))]
    rw [if_neg (by omega : ¬(240 ≤ data (s.idx +
        (midi_decode_var_length_param data s.idx).2) ∧
      data (s.idx + (midi_decode_var_length_param data s.idx).2) ≤ 247))]
    rcases h16 with h16 | h16 <;> simp only [h16] <;> norm_num
  · intro hb hv
    have h16 : data (s.idx + (midi_decode_var_length_param data
        s.idx).2) / 16 * 16 = 144 := by omega
    simp only [processMidiEvent]
    rw [if_neg (by omega : ¬(data (s.idx +
      (midi_decode_var_length_param data s.idx).2) = 255))]
    rw [if_neg (by omega : ¬(240 ≤ data (s.idx +
        (midi_decode_var_length_param data s.idx).2) ∧
      data (s.idx + (midi_decode_var_length_param data s.idx).2) ≤ 247))]
    simp only [h16]
    norm_num
    rw [show s.idx + (midi_decode_var_length_param data s.idx).2 + 1 + 1 =
      s.idx + (midi_decode_var_length_param data s.idx).2 + 2 from
      by omega]
    rw [if_neg hv]
  · intro hb hv
    have h16 : data (s.idx + (midi_decode_var_length_param data
        s.idx).2) / 16 * 16 = 144 := by omega
    simp only [processMidiEvent]
    rw [if_neg (by omega : ¬(data (s.idx +
      (midi_decode_var_length_param data s.idx).2) = 255))]
    rw [if_neg (by omega : ¬(240 ≤ data (s.idx +
        (midi_decode_var_length_param data s.idx).2) ∧
      data (s.idx + (midi_decode_var_length_param data s.idx).2) ≤ 247))]
    simp only [h16]
    norm_num
    rw [show s.idx + (midi_decode_var_length_param data s.idx).2 + 1 + 1 =
      s.idx + (midi_decode_var_length_param data s.idx).2 + 2 from
      by omega]
    rw [if_pos hv]
  · intro hb hrs
    have hsg : ¬(128 ≤ data (s.idx + (midi_decode_var_length_param data
        s.idx).2) / 16 * 16 ∧
        data (s.idx + (midi_decode_var_length_param data
        s.idx).2) / 16 * 16 ≤ 224) := by omega
    simp only [processMidiEvent]
    rw [if_neg (by omega : ¬(data (s.idx +
      (midi_decode_var_length_param data s.idx).2) = 255))]
    rw [if_neg (by omega : ¬(240 ≤ data (s.idx +
        (midi_decode_var_length_param data s.idx).2) ∧
      data (s.idx + (midi_decode_var_length_param data s.idx).2) ≤ 247))]
    simp only [if_neg hsg, hrs]
    norm_num

/-- Witness for C8: a concrete Note-Off is discarded, and a concrete
Note-On with velocity 100 triggers note slot 37. -/
theorem claim_c8_amended_theorem_witness :
    (processMidiEvent midiNoteOffData midiStateC8).sounds =
      midiStateC8.sounds ∧
    (processMidiEvent midiNoteOnData midiStateIdle).sounds =
      start_playing_a_note 35 ((100 : ℚ) / 80) midiStateIdle.sounds :=
  ⟨((claim_c8_amended_theorem midiNoteOffData midiStateC8).1
      (by decide)).1,
    by
      have h := (claim_c8_amended_theorem midiNoteOnData
        midiStateIdle).2.2.2.2.2.1 (by decide) (by decide)
      exact h⟩

/-- Counterexample to C8 as stated: a Note-Off event for a playing note
does not stop it — the Voice Table is untouched (`key_up` stays false),
whereas the claimed dispatcher effect (`stop_playing_a_note`) would set
`key_up`. -/
theorem claim_c8_counterexample :
    ((processMidiEvent midiNoteOffData midiStateC8).sounds 37).key_up =
      false ∧
    ((stop_playing_a_note 35 midiTableC8) 37).key_up = true ∧
    (midiTableC8 37).playing = true := by
  refine ⟨by decide, by decide, by decide⟩

/-- Counterexample to C9 as stated: a load whose cumulative size exceeds
the fixed Sample Store capacity is not reported or aborted — the loader
happily produces a region ending at word 40000000, past the
30000000-word buffer. -/
theorem claim_c9_counterexample :
    loadRegions 0 [40000000] = [(0, 40000000, 40000000)] ∧
    MAX_WAV_DATA_SIZE_WORD < 40000000 := by
  constructor
  · rfl
  · norm_num [MAX_WAV_DATA_SIZE_WORD, MAX_WAV_DATA_SIZE_BYTES]

end MagicKeys
